import Mathlib

/-!
Verification of the Raspberry Pi camera capture-loop script (`loop.py`).

The development shallowly embeds the script: `datetime.now().strftime`
timestamp formatting, `os.path.join` / `os.makedirs` filesystem effects,
the manual-mode controls dictionary built in `main`, and the event trace of
a terminating run of `main` (open, configure, set_controls, start, mkdir,
capture, sleep, stop, console lines).  Machine integers in the script are
plain Python ints, so they are modelled as `Int` / `Nat` without wrapping.
-/

set_option autoImplicit false

namespace CaptureLoop

/-- A wall-clock instant at second resolution, as the fields `strftime`
reads from a `datetime` value. -/
structure Timestamp where
  year : Nat
  month : Nat
  day : Nat
  hour : Nat
  minute : Nat
  second : Nat
deriving DecidableEq, Repr

/-- The ranges Python's `datetime` guarantees for its fields
(`MINYEAR = 1`, `MAXYEAR = 9999`, calendar bounds). -/
def Timestamp.Valid (t : Timestamp) : Prop :=
  1 ≤ t.year ∧ t.year ≤ 9999 ∧ 1 ≤ t.month ∧ t.month ≤ 12 ∧
  1 ≤ t.day ∧ t.day ≤ 31 ∧ t.hour ≤ 23 ∧ t.minute ≤ 59 ∧ t.second ≤ 59

instance (t : Timestamp) : Decidable t.Valid := by
  unfold Timestamp.Valid; infer_instance

/-- Zero-padded two-digit decimal, as `strftime` renders `%m %d %H %M %S`
for their in-range values (< 100). -/
def pad2 (n : Nat) : String :=
  ⟨[Nat.digitChar (n / 10 % 10), Nat.digitChar (n % 10)]⟩

/-- Zero-padded four-digit decimal, as `strftime` renders `%Y` for
`datetime` years (1..9999). -/
def pad4 (n : Nat) : String :=
  ⟨[Nat.digitChar (n / 1000 % 10), Nat.digitChar (n / 100 % 10),
    Nat.digitChar (n / 10 % 10), Nat.digitChar (n % 10)]⟩

/-- `datetime.now().strftime("%Y%m%d_%H%M%S")` at instant `t`
(loop.py line 16). -/
def fmtTimestamp (t : Timestamp) : String :=
  pad4 t.year ++ pad2 t.month ++ pad2 t.day ++ "_" ++
    pad2 t.hour ++ pad2 t.minute ++ pad2 t.second

/-- `datetime.now().strftime("image_%Y%m%d_%H%M%S.jpg")` at instant `t`
(loop.py line 185). -/
def captureFilename (t : Timestamp) : String :=
  "image_" ++ fmtTimestamp t ++ ".jpg"

/-- Python `b.startswith("/")` on the raw character list. -/
def startsWithSlash (s : String) : Bool :=
  s.data.head? == some (Char.ofNat 47)

/-- Python `a.endswith("/")` on the raw character list. -/
def endsWithSlash (s : String) : Bool :=
  s.data.getLast? == some (Char.ofNat 47)

/-- POSIX `os.path.join` for two components (loop.py lines 17 and 186). -/
def joinPath (a b : String) : String :=
  if startsWithSlash b then b
  else if a = "" ∨ endsWithSlash a = true then a ++ b
  else a ++ "/" ++ b

/-- Character-level shape of a `%Y%m%d_%H%M%S` rendering: four digits,
four digits, underscore, six digits — fifteen characters total. -/
def dirChars (l : List Char) : Bool :=
  match l with
  | [y1, y2, y3, y4, mo1, mo2, d1, d2, u, h1, h2, mi1, mi2, sec1, sec2] =>
      y1.isDigit && y2.isDigit && y3.isDigit && y4.isDigit &&
      mo1.isDigit && mo2.isDigit && d1.isDigit && d2.isDigit &&
      (u == Char.ofNat 95) && h1.isDigit && h2.isDigit &&
      mi1.isDigit && mi2.isDigit && sec1.isDigit && sec2.isDigit
  | _ => false

/-- The session-directory name format `YYYYMMDD_HHMMSS`, exactly. -/
def matchesDirFormat (s : String) : Bool :=
  dirChars s.data

/-- The image-file name format `image_YYYYMMDD_HHMMSS.jpg`, exactly:
six characters `image_`, a fifteen-character timestamp body, then
`.jpg` and nothing else. -/
def matchesFileFormat (s : String) : Bool :=
  (s.data.take 6 == ['i', 'm', 'a', 'g', 'e', Char.ofNat 95]) &&
    dirChars ((s.data.drop 6).take 15) &&
    ((s.data.drop 6).drop 15 == ['.', 'j', 'p', 'g'])

/-- Lexicographic packing of a timestamp into seconds-compatible units:
later clock readings have strictly larger keys, and one key per instant. -/
def Timestamp.key (t : Timestamp) : Nat :=
  ((((t.year * 13 + t.month) * 32 + t.day) * 24 + t.hour) * 60 + t.minute) * 60 + t.second

/-- `os.makedirs(d, exist_ok=ok)` over a directory set: raises iff the
directory exists and `exist_ok` is false; otherwise ensures it exists. -/
def makedirs (fs : List String) (d : String) (existOk : Bool) :
    Except Unit (List String) :=
  if d ∈ fs then
    (if existOk then Except.ok fs else Except.error ())
  else Except.ok (d :: fs)

/-- `create_output_directory` (loop.py lines 9-19): renders the current
timestamp, joins it to the base path, `os.makedirs(..., exist_ok=True)`,
and returns the directory path. -/
def create_output_directory (base : String) (now : Timestamp)
    (fs : List String) : Except Unit (String × List String) :=
  match makedirs fs (joinPath base (fmtTimestamp now)) true with
  | Except.ok fs2 => Except.ok (joinPath base (fmtTimestamp now), fs2)
  | Except.error e => Except.error e

/-- `OUTPUT_BASE_PATH` (loop.py line 26). -/
def OUTPUT_BASE_PATH : String :=
  "/media/nagli/aed29726-d3de-4f78-8450-0f34bb1faab11"

/-- `INTERVAL_SECONDS` (loop.py line 29). -/
def INTERVAL_SECONDS : Nat := 10

/-- `FULLY_AUTO_MODE` (loop.py line 32). -/
def FULLY_AUTO_MODE : Bool := true

/-- `libcamera.controls.AwbModeEnum` members referenced by the script. -/
inductive AwbModeEnum
  | Auto
  | Incandescent
  | Fluorescent
  | Daylight
  | Cloudy
deriving DecidableEq, Repr

/-- A value stored in the `controls` dictionary.  The script stores Python
ints, bools, one float literal (`1.0`, carried opaquely as `vGainOne` —
no float arithmetic occurs), and `AwbModeEnum` members. -/
inductive CtrlVal
  | vInt (n : Int)
  | vBool (b : Bool)
  | vGainOne
  | vAwb (m : AwbModeEnum)
deriving DecidableEq, Repr

/-- The `MANUAL_SETTINGS` record shape (loop.py lines 63-71). -/
structure ManualSettings where
  resolution : Nat × Nat
  brightness : Int
  contrast : Int
  saturation : Int
  sharpness : Int
  exposure_time : Option Int
  white_balance : String
deriving DecidableEq, Repr

/-- The concrete `MANUAL_SETTINGS` dictionary (loop.py lines 63-71). -/
def MANUAL_SETTINGS : ManualSettings :=
  ⟨(640, 480), 50, 0, 0, 0, some 1000, "auto"⟩

/-- The concrete `AUTO_SETTINGS` dictionary (loop.py lines 40-42): only a
resolution. -/
def AUTO_SETTINGS_resolution : Nat × Nat := (1920, 1080)

/-- `AWB_MODE_MAP` (loop.py lines 74-80). -/
def AWB_MODE_MAP : List (String × AwbModeEnum) :=
  [("auto", AwbModeEnum.Auto),
   ("incandescent", AwbModeEnum.Incandescent),
   ("fluorescent", AwbModeEnum.Fluorescent),
   ("daylight", AwbModeEnum.Daylight),
   ("cloudy", AwbModeEnum.Cloudy)]

/-- Python `str.lower()` (ASCII), character by character. -/
def lowerStr (s : String) : String :=
  ⟨s.data.map Char.toLower⟩

/-- First-match key lookup in a string-keyed association list. -/
def lookupAwb : List (String × AwbModeEnum) → String → Option AwbModeEnum
  | [], _ => none
  | p :: tl, s => if p.1 == s then some p.2 else lookupAwb tl s

/-- Key lookup in `AWB_MODE_MAP`: `isSome` is Python's
`wb_mode_str in AWB_MODE_MAP`, the value is `AWB_MODE_MAP[wb_mode_str]`. -/
def awbLookup (s : String) : Option AwbModeEnum :=
  lookupAwb AWB_MODE_MAP s

/-- One console line printed by the script, one constructor per `print`
site that the claims mention. -/
inductive LogLine
  | infoAutoConfigured
  | infoManualExposure (t : Int)
  | infoLockedGain
  | infoAutoExposure
  | infoAwbAuto
  | infoAwbMode (w : String)
  | warnUnrecognizedWb (w : String)
  | infoManualConfigured
  | infoCameraStarted
  | infoSaveDir (d : String)
  | infoStartingCapture
  | capSaving (p : String)
  | infoStopping
  | infoStopped
deriving DecidableEq, Repr

/-- A Python dict with string keys, as an insertion-ordered association
list with unique keys. -/
abbrev Dict := List (String × CtrlVal)

/-- Python dict assignment `d[k] = v`: replaces the value at an existing
key in place, otherwise appends the new binding. -/
def dictSet (d : Dict) (k : String) (v : CtrlVal) : Dict :=
  match d with
  | [] => [(k, v)]
  | p :: tl => if p.1 == k then (k, v) :: tl else p :: dictSet tl k v

/-- Python dict lookup `d[k]` (`none` when the key is absent). -/
def dictGet (d : Dict) (k : String) : Option CtrlVal :=
  match d with
  | [] => none
  | p :: tl => if p.1 == k then some p.2 else dictGet tl k

/-- Python `k in d`. -/
def hasKey (d : Dict) (k : String) : Bool :=
  (dictGet d k).isSome

/-- The initial `controls` dict literal (loop.py lines 109-114). -/
def baseControls (ms : ManualSettings) : Dict :=
  [("Brightness", CtrlVal.vInt ms.brightness),
   ("Contrast", CtrlVal.vInt ms.contrast),
   ("Saturation", CtrlVal.vInt ms.saturation),
   ("Sharpness", CtrlVal.vInt ms.sharpness)]

/-- The exposure branch (loop.py lines 119-133). -/
def exposureControls (c : Dict) (et : Option Int) : Dict × List LogLine :=
  match et with
  | some t =>
      (dictSet (dictSet (dictSet c "AeEnable" (CtrlVal.vBool false))
          "ExposureTime" (CtrlVal.vInt t)) "AnalogueGain" CtrlVal.vGainOne,
       [LogLine.infoManualExposure t, LogLine.infoLockedGain])
  | none =>
      (dictSet c "AeEnable" (CtrlVal.vBool true), [LogLine.infoAutoExposure])

/-- The white-balance branch (loop.py lines 138-152); `w` is the already
lowercased mode string. -/
def awbControls (c : Dict) (w : String) : Dict × List LogLine :=
  match awbLookup w with
  | some m =>
      if w == "auto" then
        (dictSet c "AwbEnable" (CtrlVal.vBool true), [LogLine.infoAwbAuto])
      else
        (dictSet (dictSet c "AwbEnable" (CtrlVal.vBool false))
            "AwbMode" (CtrlVal.vAwb m),
         [LogLine.infoAwbMode w])
  | none =>
      (dictSet c "AwbEnable" (CtrlVal.vBool true), [LogLine.warnUnrecognizedWb w])

/-- The full `controls` dict resolved by manual mode (loop.py lines
109-152), with the console lines emitted along the way. -/
def buildControls (ms : ManualSettings) : Dict × List LogLine :=
  let p1 := exposureControls (baseControls ms) ms.exposure_time
  let p2 := awbControls p1.1 (lowerStr ms.white_balance)
  (p2.1, p1.2 ++ p2.2)

/-- One externally visible step of the run. -/
inductive Event
  | eOpen
  | eConfigureRes (w h : Nat)
  | eSetControls (c : Dict)
  | eStart
  | eMakeDirs (p : String)
  | eCapture (p : String)
  | eSleep (n : Nat)
  | eStop
  | eLog (l : LogLine)
deriving DecidableEq, Repr

/-- How the (otherwise infinite) capture loop ends: `KeyboardInterrupt`
or a propagating exception, each after `n` completed captures. -/
inductive LoopEnd
  | interrupted (n : Nat)
  | faulted (n : Nat)
deriving DecidableEq, Repr

/-- Completed captures before the loop ends. -/
def LoopEnd.captures : LoopEnd → Nat
  | LoopEnd.interrupted n => n
  | LoopEnd.faulted n => n

/-- The fault environment of one terminating run. -/
structure Env where
  mkdirFault : Bool
  loopEnd : LoopEnd
deriving DecidableEq, Repr

/-- Whether the process exits cleanly (code 0) or with a propagating
exception. -/
inductive ExitStatus
  | clean
  | raised
deriving DecidableEq, Repr

/-- Camera opening and configuration (loop.py lines 87-167): auto mode
passes only the resolution; manual mode additionally resolves and applies
the controls dict in one `set_controls` call. -/
def configEvents (auto : Bool) (autoRes : Nat × Nat) (ms : ManualSettings) :
    List Event :=
  if auto then
    [Event.eOpen, Event.eConfigureRes autoRes.1 autoRes.2,
     Event.eLog LogLine.infoAutoConfigured]
  else
    [Event.eOpen, Event.eConfigureRes ms.resolution.1 ms.resolution.2] ++
      (buildControls ms).2.map Event.eLog ++
      [Event.eSetControls (buildControls ms).1,
       Event.eLog LogLine.infoManualConfigured]

/-- One full loop iteration (loop.py lines 183-193): progress line,
blocking capture to the timestamped path, fixed sleep. -/
def iterEvents (dir : String) (t : Timestamp) : List Event :=
  [Event.eLog (LogLine.capSaving (joinPath dir (captureFilename t))),
   Event.eCapture (joinPath dir (captureFilename t)),
   Event.eSleep INTERVAL_SECONDS]

/-- The `n` completed iterations of the capture loop; the clock reading at
iteration `i` is `capTs i`. -/
def loopEvents (dir : String) (capTs : Nat → Timestamp) (n : Nat) :
    List Event :=
  ((List.range n).map (fun i => iterEvents dir (capTs i))).flatten

/-- The trace and exit status of a terminating run of `main`.
Order per the source: configure (lines 92-167), start (172), directory
creation (175) — outside the `try` — then the loop inside
`try/except KeyboardInterrupt/finally picam.stop()` (181-202). -/
def runMain (auto : Bool) (autoRes : Nat × Nat) (ms : ManualSettings)
    (dirTs : Timestamp) (capTs : Nat → Timestamp) (env : Env) :
    List Event × ExitStatus :=
  let pre := configEvents auto autoRes ms ++
    [Event.eStart, Event.eLog LogLine.infoCameraStarted]
  if env.mkdirFault then
    (pre, ExitStatus.raised)
  else
    let dir := joinPath OUTPUT_BASE_PATH (fmtTimestamp dirTs)
    let pre2 := pre ++
      [Event.eMakeDirs dir, Event.eLog (LogLine.infoSaveDir dir),
       Event.eLog LogLine.infoStartingCapture]
    match env.loopEnd with
    | LoopEnd.interrupted n =>
        (pre2 ++ loopEvents dir capTs n ++
          [Event.eLog LogLine.infoStopping, Event.eStop,
           Event.eLog LogLine.infoStopped],
         ExitStatus.clean)
    | LoopEnd.faulted n =>
        (pre2 ++ loopEvents dir capTs n ++
          [Event.eLog (LogLine.capSaving
             (joinPath dir (captureFilename (capTs n)))),
           Event.eStop, Event.eLog LogLine.infoStopped],
         ExitStatus.raised)

/-- Paths of the completed captures, in order. -/
def captureFiles : List Event → List String
  | [] => []
  | Event.eCapture p :: tl => p :: captureFiles tl
  | _ :: tl => captureFiles tl

/-- Number of `picam.stop()` calls. -/
def stopCount : List Event → Nat
  | [] => 0
  | Event.eStop :: tl => stopCount tl + 1
  | _ :: tl => stopCount tl

/-- Payloads of the `picam.set_controls` calls, in order. -/
def setControlsList : List Event → List Dict
  | [] => []
  | Event.eSetControls c :: tl => c :: setControlsList tl
  | _ :: tl => setControlsList tl

/-- Resolutions of the `picam.configure` calls, in order. -/
def configureList : List Event → List (Nat × Nat)
  | [] => []
  | Event.eConfigureRes w h :: tl => (w, h) :: configureList tl
  | _ :: tl => configureList tl

/-- Device-handle lifecycle events: open, configure, start, stop. -/
def isLifecycle : Event → Bool
  | Event.eOpen => true
  | Event.eConfigureRes _ _ => true
  | Event.eStart => true
  | Event.eStop => true
  | _ => false

/-- The subtrace of device-lifecycle events. -/
def lifecycleEvents (tr : List Event) : List Event :=
  tr.filter isLifecycle

/-! ### Theorems -/

theorem digitChar_inj : ∀ a < 10, ∀ b < 10, Nat.digitChar a = Nat.digitChar b → a = b := by
  decide

theorem digitChar_isDigit : ∀ a < 10, (Nat.digitChar a).isDigit = true := by
  decide

theorem digitChar_ne_slash : ∀ a < 10, Nat.digitChar a ≠ Char.ofNat 47 := by
  decide

theorem pad2_data (n : Nat) :
    (pad2 n).data = [Nat.digitChar (n / 10 % 10), Nat.digitChar (n % 10)] := rfl

theorem pad4_data (n : Nat) :
    (pad4 n).data = [Nat.digitChar (n / 1000 % 10), Nat.digitChar (n / 100 % 10),
      Nat.digitChar (n / 10 % 10), Nat.digitChar (n % 10)] := rfl

theorem pad2_inj {a b : Nat} (ha : a < 100) (hb : b < 100)
    (h : pad2 a = pad2 b) : a = b := by
  have h2 : (pad2 a).data = (pad2 b).data := by rw [h]
  rw [pad2_data, pad2_data] at h2
  injection h2 with h3 h4
  injection h4 with h5 _
  have e1 : a / 10 % 10 = b / 10 % 10 :=
    digitChar_inj _ (Nat.mod_lt _ (by norm_num)) _ (Nat.mod_lt _ (by norm_num)) h3
  have e2 : a % 10 = b % 10 :=
    digitChar_inj _ (Nat.mod_lt _ (by norm_num)) _ (Nat.mod_lt _ (by norm_num)) h5
  omega

theorem pad4_inj {a b : Nat} (ha : a < 10000) (hb : b < 10000)
    (h : pad4 a = pad4 b) : a = b := by
  have h2 : (pad4 a).data = (pad4 b).data := by rw [h]
  rw [pad4_data, pad4_data] at h2
  injection h2 with h3 h4
  injection h4 with h5 h6
  injection h6 with h7 h8
  injection h8 with h9 _
  have e1 : a / 1000 % 10 = b / 1000 % 10 :=
    digitChar_inj _ (Nat.mod_lt _ (by norm_num)) _ (Nat.mod_lt _ (by norm_num)) h3
  have e2 : a / 100 % 10 = b / 100 % 10 :=
    digitChar_inj _ (Nat.mod_lt _ (by norm_num)) _ (Nat.mod_lt _ (by norm_num)) h5
  have e3 : a / 10 % 10 = b / 10 % 10 :=
    digitChar_inj _ (Nat.mod_lt _ (by norm_num)) _ (Nat.mod_lt _ (by norm_num)) h7
  have e4 : a % 10 = b % 10 :=
    digitChar_inj _ (Nat.mod_lt _ (by norm_num)) _ (Nat.mod_lt _ (by norm_num)) h9
  omega

theorem fmtTimestamp_data (t : Timestamp) :
    (fmtTimestamp t).data =
      (pad4 t.year).data ++ (pad2 t.month).data ++ (pad2 t.day).data ++
        [Char.ofNat 95] ++ (pad2 t.hour).data ++ (pad2 t.minute).data ++
        (pad2 t.second).data := by
  simp [fmtTimestamp, String.data_append]

theorem fmtTimestamp_inj {t u : Timestamp} (ht : t.Valid) (hu : u.Valid)
    (h : fmtTimestamp t = fmtTimestamp u) : t = u := by
  obtain ⟨hy1, hy2, hm1, hm2, hd1, hd2, hh, hmin, hs⟩ := ht
  obtain ⟨gy1, gy2, gm1, gm2, gd1, gd2, gh, gmin, gs⟩ := hu
  have h2 : (fmtTimestamp t).data = (fmtTimestamp u).data := by rw [h]
  rw [fmtTimestamp_data, fmtTimestamp_data] at h2
  rw [pad4_data, pad2_data, pad2_data, pad2_data, pad2_data, pad2_data,
    pad4_data, pad2_data, pad2_data, pad2_data, pad2_data, pad2_data] at h2
  simp only [List.cons_append, List.nil_append, List.cons.injEq] at h2
  obtain ⟨c1, c2, c3, c4, c5, c6, c7, c8, _, c10, c11, c12, c13, c14, c15, _⟩ := h2
  have dij : ∀ a < 10, ∀ b < 10, Nat.digitChar a = Nat.digitChar b → a = b :=
    digitChar_inj
  have m10 : ∀ n : Nat, n % 10 < 10 := fun n => Nat.mod_lt _ (by norm_num)
  have ey : t.year = u.year := by
    have e1 := dij _ (m10 _) _ (m10 _) c1
    have e2 := dij _ (m10 _) _ (m10 _) c2
    have e3 := dij _ (m10 _) _ (m10 _) c3
    have e4 := dij _ (m10 _) _ (m10 _) c4
    omega
  have em : t.month = u.month := by
    have e1 := dij _ (m10 _) _ (m10 _) c5
    have e2 := dij _ (m10 _) _ (m10 _) c6
    omega
  have ed : t.day = u.day := by
    have e1 := dij _ (m10 _) _ (m10 _) c7
    have e2 := dij _ (m10 _) _ (m10 _) c8
    omega
  have eh : t.hour = u.hour := by
    have e1 := dij _ (m10 _) _ (m10 _) c10
    have e2 := dij _ (m10 _) _ (m10 _) c11
    omega
  have emin : t.minute = u.minute := by
    have e1 := dij _ (m10 _) _ (m10 _) c12
    have e2 := dij _ (m10 _) _ (m10 _) c13
    omega
  have es : t.second = u.second := by
    have e1 := dij _ (m10 _) _ (m10 _) c14
    have e2 := dij _ (m10 _) _ (m10 _) c15
    omega
  cases t; cases u
  simp_all

theorem fmtTimestamp_head (t : Timestamp) :
    (fmtTimestamp t).data.head? = some (Nat.digitChar (t.year / 1000 % 10)) := by
  rw [fmtTimestamp_data, pad4_data]
  simp

theorem fmtTimestamp_not_slash_start (t : Timestamp) :
    startsWithSlash (fmtTimestamp t) = false := by
  rw [startsWithSlash, fmtTimestamp_head]
  have h := digitChar_ne_slash (t.year / 1000 % 10) (Nat.mod_lt _ (by norm_num))
  simp [h]

theorem captureFilename_head (t : Timestamp) :
    (captureFilename t).data.head? = some (Char.ofNat 105) := by
  rw [captureFilename]
  have h : ("image_" ++ fmtTimestamp t ++ ".jpg").data =
      Char.ofNat 105 :: ("mage_".data ++ (fmtTimestamp t).data ++ ".jpg".data) := by
    simp [String.data_append]
  rw [h]
  rfl

theorem captureFilename_not_slash_start (t : Timestamp) :
    startsWithSlash (captureFilename t) = false := by
  rw [startsWithSlash, captureFilename_head]
  decide

theorem fmtTimestamp_getLast (t : Timestamp) :
    (fmtTimestamp t).data.getLast? = some (Nat.digitChar (t.second % 10)) := by
  rw [fmtTimestamp_data]
  rw [List.getLast?_append]
  rw [pad2_data]
  simp

theorem fmtTimestamp_not_slash_end (t : Timestamp) :
    endsWithSlash (fmtTimestamp t) = false := by
  rw [endsWithSlash, fmtTimestamp_getLast]
  have h := digitChar_ne_slash (t.second % 10) (Nat.mod_lt _ (by norm_num))
  simp [h]

theorem fmtTimestamp_ne_empty (t : Timestamp) : fmtTimestamp t ≠ "" := by
  intro h
  have h2 : (fmtTimestamp t).data = ("" : String).data := by rw [h]
  rw [fmtTimestamp_data, pad4_data] at h2
  simp at h2

/-- `joinPath` reduces to explicit concatenation for an absolute-free second
component and a nonempty first component without trailing slash. -/
theorem joinPath_eq_concat (a b : String) (ha1 : a ≠ "")
    (ha2 : endsWithSlash a = false) (hb : startsWithSlash b = false) :
    joinPath a b = a ++ "/" ++ b := by
  rw [joinPath, if_neg, if_neg]
  · rintro (h | h)
    · exact ha1 h
    · rw [ha2] at h; exact Bool.false_ne_true h
  · rw [hb]; exact Bool.false_ne_true

theorem string_append_right_cancel {a x y : String} (h : a ++ x = a ++ y) :
    x = y := by
  have h2 : (a ++ x).data = (a ++ y).data := by rw [h]
  rw [String.data_append, String.data_append] at h2
  have h3 : x.data = y.data := List.append_cancel_left h2
  cases x; cases y; simp_all

/-- For a fixed first component, `joinPath` is injective on second components
that are not absolute paths. -/
theorem joinPath_right_inj {a x y : String} (hx : startsWithSlash x = false)
    (hy : startsWithSlash y = false) (h : joinPath a x = joinPath a y) :
    x = y := by
  have hx2 : ¬ (startsWithSlash x = true) := by rw [hx]; exact Bool.false_ne_true
  have hy2 : ¬ (startsWithSlash y = true) := by rw [hy]; exact Bool.false_ne_true
  rw [joinPath, joinPath, if_neg hx2, if_neg hy2] at h
  by_cases hc : a = "" ∨ endsWithSlash a = true
  · rw [if_pos hc, if_pos hc] at h
    exact string_append_right_cancel h
  · rw [if_neg hc, if_neg hc] at h
    exact string_append_right_cancel h

theorem makedirs_existOk_ok (fs : List String) (d : String) :
    ∃ fs2, makedirs fs d true = Except.ok fs2 ∧ d ∈ fs2 ∧
      ∀ e ∈ fs, e ∈ fs2 := by
  rw [makedirs]
  by_cases h : d ∈ fs
  · exact ⟨fs, by rw [if_pos h, if_pos rfl], h, fun e he => he⟩
  · exact ⟨d :: fs, by rw [if_neg h], List.mem_cons_self d fs, fun e he => List.mem_cons_of_mem _ he⟩

theorem create_output_directory_ok (base : String) (now : Timestamp)
    (fs : List String) :
    ∃ fs2, create_output_directory base now fs =
        Except.ok (joinPath base (fmtTimestamp now), fs2) ∧
      joinPath base (fmtTimestamp now) ∈ fs2 ∧ ∀ e ∈ fs, e ∈ fs2 := by
  obtain ⟨fs2, hok, hmem, hsub⟩ :=
    makedirs_existOk_ok fs (joinPath base (fmtTimestamp now))
  exact ⟨fs2, by rw [create_output_directory, hok], hmem, hsub⟩

theorem create_output_directory_stable (base : String) (now : Timestamp)
    (fs : List String) (h : joinPath base (fmtTimestamp now) ∈ fs) :
    create_output_directory base now fs =
      Except.ok (joinPath base (fmtTimestamp now), fs) := by
  rw [create_output_directory, makedirs, if_pos h, if_pos rfl]

theorem dictGet_cons (p : String × CtrlVal) (tl : Dict) (k : String) :
    dictGet (p :: tl) k = if p.1 == k then some p.2 else dictGet tl k := rfl

theorem dictGet_dictSet_same (d : Dict) (k : String) (v : CtrlVal) :
    dictGet (dictSet d k v) k = some v := by
  induction d with
  | nil => simp [dictSet, dictGet]
  | cons p tl ih =>
    rw [dictSet]
    by_cases h : p.1 == k
    · rw [if_pos h, dictGet_cons]
      simp
    · rw [if_neg h, dictGet_cons, if_neg h]
      exact ih

theorem dictGet_dictSet_ne (d : Dict) (k k2 : String) (v : CtrlVal)
    (h : k ≠ k2) : dictGet (dictSet d k v) k2 = dictGet d k2 := by
  have hb : ¬ ((k == k2) = true) := by
    rw [beq_eq_false_iff_ne.mpr h]; exact Bool.false_ne_true
  induction d with
  | nil =>
    rw [dictSet, dictGet_cons, if_neg hb]
  | cons p tl ih =>
    rw [dictSet]
    by_cases hp : p.1 == k
    · rw [if_pos hp]
      have hp2 : ¬ ((p.1 == k2) = true) := by
        rw [eq_of_beq hp]; exact hb
      rw [dictGet_cons, if_neg hb, dictGet_cons, if_neg hp2]
    · rw [if_neg hp]
      by_cases hq : p.1 == k2
      · rw [dictGet_cons, if_pos hq, dictGet_cons, if_pos hq]
      · rw [dictGet_cons, if_neg hq, dictGet_cons, if_neg hq]
        exact ih

theorem buildControls_eq (ms : ManualSettings) :
    buildControls ms =
      ((awbControls (exposureControls (baseControls ms) ms.exposure_time).1
          (lowerStr ms.white_balance)).1,
       (exposureControls (baseControls ms) ms.exposure_time).2 ++
         (awbControls (exposureControls (baseControls ms) ms.exposure_time).1
           (lowerStr ms.white_balance)).2) := rfl

theorem exposureControls_some (c : Dict) (t : Int) :
    exposureControls c (some t) =
      (dictSet (dictSet (dictSet c "AeEnable" (CtrlVal.vBool false))
          "ExposureTime" (CtrlVal.vInt t)) "AnalogueGain" CtrlVal.vGainOne,
       [LogLine.infoManualExposure t, LogLine.infoLockedGain]) := rfl

theorem exposureControls_none (c : Dict) :
    exposureControls c none =
      (dictSet c "AeEnable" (CtrlVal.vBool true), [LogLine.infoAutoExposure]) := rfl

theorem awbControls_of_none (c : Dict) (w : String) (hl : awbLookup w = none) :
    awbControls c w =
      (dictSet c "AwbEnable" (CtrlVal.vBool true),
       [LogLine.warnUnrecognizedWb w]) := by
  unfold awbControls
  rw [hl]

theorem awbControls_of_auto (c : Dict) (w : String) (m : AwbModeEnum)
    (hl : awbLookup w = some m) (hw : w = "auto") :
    awbControls c w =
      (dictSet c "AwbEnable" (CtrlVal.vBool true), [LogLine.infoAwbAuto]) := by
  unfold awbControls
  rw [hl]
  simp only []
  rw [if_pos (beq_iff_eq.mpr hw)]

theorem awbControls_of_mode (c : Dict) (w : String) (m : AwbModeEnum)
    (hl : awbLookup w = some m) (hw : w ≠ "auto") :
    awbControls c w =
      (dictSet (dictSet c "AwbEnable" (CtrlVal.vBool false))
          "AwbMode" (CtrlVal.vAwb m),
       [LogLine.infoAwbMode w]) := by
  unfold awbControls
  rw [hl]
  simp only []
  rw [if_neg (fun hb => hw (eq_of_beq hb))]

theorem awbControls_get_other (c : Dict) (w k : String)
    (h1 : k ≠ "AwbEnable") (h2 : k ≠ "AwbMode") :
    dictGet (awbControls c w).1 k = dictGet c k := by
  rcases hl : awbLookup w with _ | m
  · rw [awbControls_of_none c w hl]
    exact dictGet_dictSet_ne _ _ _ _ (Ne.symm h1)
  · by_cases hw : w = "auto"
    · rw [awbControls_of_auto c w m hl hw]
      exact dictGet_dictSet_ne _ _ _ _ (Ne.symm h1)
    · rw [awbControls_of_mode c w m hl hw]
      rw [dictGet_dictSet_ne _ _ _ _ (Ne.symm h2)]
      exact dictGet_dictSet_ne _ _ _ _ (Ne.symm h1)

theorem exposureControls_get_other (c : Dict) (et : Option Int) (k : String)
    (h1 : k ≠ "AeEnable") (h2 : k ≠ "ExposureTime") (h3 : k ≠ "AnalogueGain") :
    dictGet (exposureControls c et).1 k = dictGet c k := by
  cases et with
  | some t =>
    rw [exposureControls_some]
    rw [dictGet_dictSet_ne _ _ _ _ (Ne.symm h3),
      dictGet_dictSet_ne _ _ _ _ (Ne.symm h2)]
    exact dictGet_dictSet_ne _ _ _ _ (Ne.symm h1)
  | none =>
    rw [exposureControls_none]
    exact dictGet_dictSet_ne _ _ _ _ (Ne.symm h1)

theorem awbLookup_isSome_iff (s : String) :
    (awbLookup s).isSome = true ↔
      s = "auto" ∨ s = "incandescent" ∨ s = "fluorescent" ∨
        s = "daylight" ∨ s = "cloudy" := by
  rw [awbLookup, AWB_MODE_MAP]
  simp only [lookupAwb]
  split_ifs with h1 h2 h3 h4 h5
  · exact iff_of_true rfl (Or.inl (eq_of_beq h1).symm)
  · exact iff_of_true rfl (Or.inr (Or.inl (eq_of_beq h2).symm))
  · exact iff_of_true rfl (Or.inr (Or.inr (Or.inl (eq_of_beq h3).symm)))
  · exact iff_of_true rfl (Or.inr (Or.inr (Or.inr (Or.inl (eq_of_beq h4).symm))))
  · exact iff_of_true rfl (Or.inr (Or.inr (Or.inr (Or.inr (eq_of_beq h5).symm))))
  · refine iff_of_false (by simp) ?_
    rintro (h | h | h | h | h)
    · exact h1 (beq_iff_eq.mpr h.symm)
    · exact h2 (beq_iff_eq.mpr h.symm)
    · exact h3 (beq_iff_eq.mpr h.symm)
    · exact h4 (beq_iff_eq.mpr h.symm)
    · exact h5 (beq_iff_eq.mpr h.symm)

theorem buildControls_fst (ms : ManualSettings) :
    (buildControls ms).1 =
      (awbControls (exposureControls (baseControls ms) ms.exposure_time).1
        (lowerStr ms.white_balance)).1 := rfl

theorem buildControls_snd (ms : ManualSettings) :
    (buildControls ms).2 =
      (exposureControls (baseControls ms) ms.exposure_time).2 ++
        (awbControls (exposureControls (baseControls ms) ms.exposure_time).1
          (lowerStr ms.white_balance)).2 := rfl

theorem buildControls_get_quality (ms : ManualSettings) :
    dictGet (buildControls ms).1 "Brightness" = some (CtrlVal.vInt ms.brightness) ∧
    dictGet (buildControls ms).1 "Contrast" = some (CtrlVal.vInt ms.contrast) ∧
    dictGet (buildControls ms).1 "Saturation" = some (CtrlVal.vInt ms.saturation) ∧
    dictGet (buildControls ms).1 "Sharpness" = some (CtrlVal.vInt ms.sharpness) := by
  refine ⟨?_, ?_, ?_, ?_⟩ <;>
    rw [buildControls_fst,
      awbControls_get_other _ _ _ (by decide) (by decide),
      exposureControls_get_other _ _ _ (by decide) (by decide) (by decide)] <;>
    rfl

theorem buildControls_ae_some (ms : ManualSettings) (t : Int)
    (het : ms.exposure_time = some t) :
    dictGet (buildControls ms).1 "AeEnable" = some (CtrlVal.vBool false) ∧
    dictGet (buildControls ms).1 "ExposureTime" = some (CtrlVal.vInt t) ∧
    dictGet (buildControls ms).1 "AnalogueGain" = some CtrlVal.vGainOne := by
  refine ⟨?_, ?_, ?_⟩ <;>
    rw [buildControls_fst, het,
      awbControls_get_other _ _ _ (by decide) (by decide)] <;>
    rfl

theorem buildControls_ae_none (ms : ManualSettings)
    (het : ms.exposure_time = none) :
    dictGet (buildControls ms).1 "AeEnable" = some (CtrlVal.vBool true) ∧
    dictGet (buildControls ms).1 "ExposureTime" = none ∧
    dictGet (buildControls ms).1 "AnalogueGain" = none := by
  refine ⟨?_, ?_, ?_⟩ <;>
    rw [buildControls_fst, het,
      awbControls_get_other _ _ _ (by decide) (by decide)] <;>
    rfl

theorem buildControls_awb_auto (ms : ManualSettings)
    (hw : (lowerStr ms.white_balance) = "auto") :
    dictGet (buildControls ms).1 "AwbEnable" = some (CtrlVal.vBool true) ∧
    dictGet (buildControls ms).1 "AwbMode" = none := by
  constructor
  · rw [buildControls_fst, hw]
    exact dictGet_dictSet_same _ _ _
  · rw [buildControls_fst, hw]
    have h : dictGet
        (awbControls (exposureControls (baseControls ms) ms.exposure_time).1
          "auto").1 "AwbMode" =
        dictGet (exposureControls (baseControls ms) ms.exposure_time).1
          "AwbMode" := by
      exact dictGet_dictSet_ne _ _ _ _ (by decide)
    rw [h, exposureControls_get_other _ _ _ (by decide) (by decide) (by decide)]
    rfl

theorem buildControls_awb_mode (ms : ManualSettings) (m : AwbModeEnum)
    (hl : awbLookup (lowerStr ms.white_balance) = some m)
    (hw : (lowerStr ms.white_balance) ≠ "auto") :
    dictGet (buildControls ms).1 "AwbEnable" = some (CtrlVal.vBool false) ∧
    dictGet (buildControls ms).1 "AwbMode" = some (CtrlVal.vAwb m) := by
  constructor
  · rw [buildControls_fst, awbControls_of_mode _ _ m hl hw]
    simp only []
    rw [dictGet_dictSet_ne _ _ _ _ (by decide)]
    exact dictGet_dictSet_same _ _ _
  · rw [buildControls_fst, awbControls_of_mode _ _ m hl hw]
    simp only []
    exact dictGet_dictSet_same _ _ _

theorem buildControls_awb_fallback (ms : ManualSettings)
    (hl : awbLookup (lowerStr ms.white_balance) = none) :
    dictGet (buildControls ms).1 "AwbEnable" = some (CtrlVal.vBool true) ∧
    dictGet (buildControls ms).1 "AwbMode" = none ∧
    LogLine.warnUnrecognizedWb (lowerStr ms.white_balance) ∈ (buildControls ms).2 := by
  refine ⟨?_, ?_, ?_⟩
  · rw [buildControls_fst, awbControls_of_none _ _ hl]
    simp only []
    exact dictGet_dictSet_same _ _ _
  · rw [buildControls_fst, awbControls_of_none _ _ hl]
    simp only []
    rw [dictGet_dictSet_ne _ _ _ _ (by decide),
      exposureControls_get_other _ _ _ (by decide) (by decide) (by decide)]
    rfl
  · rw [buildControls_snd, awbControls_of_none _ _ hl]
    simp

/-- Invariant shape of the manual-mode control set (helper for C10): the
four quality keys and `AeEnable`/`AwbEnable` are always present,
`ExposureTime`/`AnalogueGain` are present exactly when `AeEnable` is
false, `AwbMode` exactly when `AwbEnable` is false. -/
theorem buildControls_structure (ms : ManualSettings) :
    hasKey (buildControls ms).1 "Brightness" = true ∧
    hasKey (buildControls ms).1 "Contrast" = true ∧
    hasKey (buildControls ms).1 "Saturation" = true ∧
    hasKey (buildControls ms).1 "Sharpness" = true ∧
    hasKey (buildControls ms).1 "AeEnable" = true ∧
    hasKey (buildControls ms).1 "AwbEnable" = true ∧
    (hasKey (buildControls ms).1 "ExposureTime" = true ↔
      dictGet (buildControls ms).1 "AeEnable" = some (CtrlVal.vBool false)) ∧
    (hasKey (buildControls ms).1 "AnalogueGain" = true ↔
      dictGet (buildControls ms).1 "AeEnable" = some (CtrlVal.vBool false)) ∧
    (hasKey (buildControls ms).1 "AwbMode" = true ↔
      dictGet (buildControls ms).1 "AwbEnable" = some (CtrlVal.vBool false)) := by
  obtain ⟨hq1, hq2, hq3, hq4⟩ := buildControls_get_quality ms
  have hawb :
      (dictGet (buildControls ms).1 "AwbEnable" = some (CtrlVal.vBool true) ∧
        dictGet (buildControls ms).1 "AwbMode" = none) ∨
      (dictGet (buildControls ms).1 "AwbEnable" = some (CtrlVal.vBool false) ∧
        ∃ m, dictGet (buildControls ms).1 "AwbMode" = some (CtrlVal.vAwb m)) := by
    rcases hl : awbLookup (lowerStr ms.white_balance) with _ | m
    · obtain ⟨ha, hb, _⟩ := buildControls_awb_fallback ms hl
      exact Or.inl ⟨ha, hb⟩
    · by_cases hw : (lowerStr ms.white_balance) = "auto"
      · exact Or.inl (buildControls_awb_auto ms hw)
      · obtain ⟨ha, hb⟩ := buildControls_awb_mode ms m hl hw
        exact Or.inr ⟨ha, ⟨m, hb⟩⟩
  have hae :
      (dictGet (buildControls ms).1 "AeEnable" = some (CtrlVal.vBool false) ∧
        dictGet (buildControls ms).1 "ExposureTime" ≠ none ∧
        dictGet (buildControls ms).1 "AnalogueGain" ≠ none) ∨
      (dictGet (buildControls ms).1 "AeEnable" = some (CtrlVal.vBool true) ∧
        dictGet (buildControls ms).1 "ExposureTime" = none ∧
        dictGet (buildControls ms).1 "AnalogueGain" = none) := by
    rcases het : ms.exposure_time with _ | t
    · obtain ⟨ha, hb, hc⟩ := buildControls_ae_none ms het
      exact Or.inr ⟨ha, hb, hc⟩
    · obtain ⟨ha, hb, hc⟩ := buildControls_ae_some ms t het
      exact Or.inl ⟨ha, by rw [hb]; simp, by rw [hc]; simp⟩
  refine ⟨by rw [hasKey, hq1]; rfl, by rw [hasKey, hq2]; rfl,
    by rw [hasKey, hq3]; rfl, by rw [hasKey, hq4]; rfl, ?_, ?_, ?_, ?_, ?_⟩
  · rcases hae with ⟨ha, _, _⟩ | ⟨ha, _, _⟩ <;> rw [hasKey, ha] <;> rfl
  · rcases hawb with ⟨ha, _⟩ | ⟨ha, _⟩ <;> rw [hasKey, ha] <;> rfl
  · rcases hae with ⟨ha, hb, _⟩ | ⟨ha, hb, _⟩
    · refine iff_of_true ?_ ha
      rw [hasKey]
      rcases h : dictGet (buildControls ms).1 "ExposureTime" with _ | v
      · exact absurd h hb
      · rfl
    · refine iff_of_false ?_ ?_
      · rw [hasKey, hb]; simp
      · rw [ha]; simp
  · rcases hae with ⟨ha, _, hc⟩ | ⟨ha, _, hc⟩
    · refine iff_of_true ?_ ha
      rw [hasKey]
      rcases h : dictGet (buildControls ms).1 "AnalogueGain" with _ | v
      · exact absurd h hc
      · rfl
    · refine iff_of_false ?_ ?_
      · rw [hasKey, hc]; simp
      · rw [ha]; simp
  · rcases hawb with ⟨ha, hb⟩ | ⟨ha, hm, hb⟩
    · refine iff_of_false ?_ ?_
      · rw [hasKey, hb]; simp
      · rw [ha]; simp
    · refine iff_of_true ?_ ha
      rw [hasKey, hb]; rfl

/-- C2: in manual mode, a configured white-balance string whose lowercase
form is a key of `AWB_MODE_MAP` selects the corresponding mode — `auto`
enables auto white balance, any other member disables it and selects that
member's enum value — while any other string falls back to auto white
balance and emits the warning line; resolution is a total function (it
never raises).  The final conjunct identifies the recognized set with the
five supported strings. -/
theorem claim_c2_white_balance_resolution (ms : ManualSettings) :
    ((lowerStr ms.white_balance) = "auto" →
      dictGet (buildControls ms).1 "AwbEnable" = some (CtrlVal.vBool true)) ∧
    (∀ m, awbLookup (lowerStr ms.white_balance) = some m →
      (lowerStr ms.white_balance) ≠ "auto" →
      dictGet (buildControls ms).1 "AwbEnable" = some (CtrlVal.vBool false) ∧
      dictGet (buildControls ms).1 "AwbMode" = some (CtrlVal.vAwb m)) ∧
    (awbLookup (lowerStr ms.white_balance) = none →
      dictGet (buildControls ms).1 "AwbEnable" = some (CtrlVal.vBool true) ∧
      LogLine.warnUnrecognizedWb (lowerStr ms.white_balance) ∈ (buildControls ms).2) ∧
    ((awbLookup (lowerStr ms.white_balance)).isSome = true ↔
      (lowerStr ms.white_balance) = "auto" ∨
        (lowerStr ms.white_balance) = "incandescent" ∨
        (lowerStr ms.white_balance) = "fluorescent" ∨
        (lowerStr ms.white_balance) = "daylight" ∨
        (lowerStr ms.white_balance) = "cloudy") := by
  refine ⟨?_, ?_, ?_, awbLookup_isSome_iff _⟩
  · intro hw
    exact (buildControls_awb_auto ms hw).1
  · intro m hl hw
    exact buildControls_awb_mode ms m hl hw
  · intro hl
    obtain ⟨ha, _, hc⟩ := buildControls_awb_fallback ms hl
    exact ⟨ha, hc⟩

/-- C2 witness: the theorem applied at the concrete manual settings with
white balance `"Daylight"` (recognized, non-auto) and at `"bogus"`
(unrecognized, falls back to auto with a warning). -/
theorem claim_c2_white_balance_resolution_witness :
    (dictGet (buildControls ⟨(640, 480), 50, 0, 0, 0, some 1000, "Daylight"⟩).1
        "AwbMode" = some (CtrlVal.vAwb AwbModeEnum.Daylight)) ∧
    (dictGet (buildControls ⟨(640, 480), 50, 0, 0, 0, none, "bogus"⟩).1
        "AwbEnable" = some (CtrlVal.vBool true)) ∧
    LogLine.warnUnrecognizedWb "bogus" ∈
      (buildControls ⟨(640, 480), 50, 0, 0, 0, none, "bogus"⟩).2 := by
  refine ⟨?_, ?_, ?_⟩
  · exact ((claim_c2_white_balance_resolution
      ⟨(640, 480), 50, 0, 0, 0, some 1000, "Daylight"⟩).2.1
        AwbModeEnum.Daylight (by rfl) (by decide)).2
  · exact ((claim_c2_white_balance_resolution
      ⟨(640, 480), 50, 0, 0, 0, none, "bogus"⟩).2.2.1 (by rfl)).1
  · exact ((claim_c2_white_balance_resolution
      ⟨(640, 480), 50, 0, 0, 0, none, "bogus"⟩).2.2.1 (by rfl)).2

/-- C3: in manual mode, a provided exposure time yields
`AeEnable = False`, `ExposureTime` verbatim and `AnalogueGain = 1.0`; an
absent exposure time yields `AeEnable = True` with neither an
`ExposureTime` nor an `AnalogueGain` entry. -/
theorem claim_c3_exposure_resolution (ms : ManualSettings) :
    (∀ t, ms.exposure_time = some t →
      dictGet (buildControls ms).1 "AeEnable" = some (CtrlVal.vBool false) ∧
      dictGet (buildControls ms).1 "ExposureTime" = some (CtrlVal.vInt t) ∧
      dictGet (buildControls ms).1 "AnalogueGain" = some CtrlVal.vGainOne) ∧
    (ms.exposure_time = none →
      dictGet (buildControls ms).1 "AeEnable" = some (CtrlVal.vBool true) ∧
      dictGet (buildControls ms).1 "ExposureTime" = none ∧
      dictGet (buildControls ms).1 "AnalogueGain" = none) :=
  ⟨fun t het => buildControls_ae_some ms t het,
   fun het => buildControls_ae_none ms het⟩

/-- C3 witness: the theorem applied at the concrete `MANUAL_SETTINGS`
(exposure time 1000 µs) and at the same record with exposure time absent. -/
theorem claim_c3_exposure_resolution_witness :
    (dictGet (buildControls MANUAL_SETTINGS).1 "ExposureTime" =
      some (CtrlVal.vInt 1000)) ∧
    (dictGet (buildControls ⟨(640, 480), 50, 0, 0, 0, none, "auto"⟩).1
      "AnalogueGain" = none) := by
  constructor
  · exact ((claim_c3_exposure_resolution MANUAL_SETTINGS).1 1000 (by rfl)).2.1
  · exact ((claim_c3_exposure_resolution
      ⟨(640, 480), 50, 0, 0, 0, none, "auto"⟩).2 (by rfl)).2.2

theorem captureFiles_append (a b : List Event) :
    captureFiles (a ++ b) = captureFiles a ++ captureFiles b := by
  induction a with
  | nil => rfl
  | cons e tl ih => cases e <;> simp [captureFiles, ih]

theorem stopCount_append (a b : List Event) :
    stopCount (a ++ b) = stopCount a + stopCount b := by
  induction a with
  | nil => simp [stopCount]
  | cons e tl ih =>
    cases e
    all_goals simp [stopCount, ih]
    all_goals omega

theorem setControlsList_append (a b : List Event) :
    setControlsList (a ++ b) = setControlsList a ++ setControlsList b := by
  induction a with
  | nil => rfl
  | cons e tl ih => cases e <;> simp [setControlsList, ih]

theorem configureList_append (a b : List Event) :
    configureList (a ++ b) = configureList a ++ configureList b := by
  induction a with
  | nil => rfl
  | cons e tl ih => cases e <;> simp [configureList, ih]

theorem lifecycleEvents_append (a b : List Event) :
    lifecycleEvents (a ++ b) = lifecycleEvents a ++ lifecycleEvents b := by
  rw [lifecycleEvents, lifecycleEvents, lifecycleEvents, List.filter_append]

theorem captureFiles_map_eLog (ls : List LogLine) :
    captureFiles (ls.map Event.eLog) = [] := by
  induction ls with
  | nil => rfl
  | cons l tl ih => simp [captureFiles, ih]

theorem stopCount_map_eLog (ls : List LogLine) :
    stopCount (ls.map Event.eLog) = 0 := by
  induction ls with
  | nil => rfl
  | cons l tl ih => simp [stopCount, ih]

theorem setControlsList_map_eLog (ls : List LogLine) :
    setControlsList (ls.map Event.eLog) = [] := by
  induction ls with
  | nil => rfl
  | cons l tl ih => simp [setControlsList, ih]

theorem configureList_map_eLog (ls : List LogLine) :
    configureList (ls.map Event.eLog) = [] := by
  induction ls with
  | nil => rfl
  | cons l tl ih => simp [configureList, ih]

theorem lifecycleEvents_map_eLog (ls : List LogLine) :
    lifecycleEvents (ls.map Event.eLog) = [] := by
  induction ls with
  | nil => rfl
  | cons l tl ih =>
    rw [List.map_cons, lifecycleEvents, List.filter_cons]
    simp only [isLifecycle, Bool.false_eq_true, if_false]
    exact ih

theorem loopEvents_succ (dir : String) (capTs : Nat → Timestamp) (k : Nat) :
    loopEvents dir capTs (k + 1) =
      loopEvents dir capTs k ++ iterEvents dir (capTs k) := by
  rw [loopEvents, List.range_succ, List.map_append, List.flatten_append]
  simp [loopEvents]

theorem captureFiles_loopEvents (dir : String) (capTs : Nat → Timestamp)
    (n : Nat) :
    captureFiles (loopEvents dir capTs n) =
      (List.range n).map (fun i => joinPath dir (captureFilename (capTs i))) := by
  induction n with
  | zero => rfl
  | succ k ih =>
    rw [loopEvents_succ, captureFiles_append, ih, List.range_succ,
      List.map_append]
    rfl

theorem stopCount_loopEvents (dir : String) (capTs : Nat → Timestamp)
    (n : Nat) : stopCount (loopEvents dir capTs n) = 0 := by
  induction n with
  | zero => rfl
  | succ k ih =>
    rw [loopEvents_succ, stopCount_append, ih]
    rfl

theorem setControlsList_loopEvents (dir : String) (capTs : Nat → Timestamp)
    (n : Nat) : setControlsList (loopEvents dir capTs n) = [] := by
  induction n with
  | zero => rfl
  | succ k ih =>
    rw [loopEvents_succ, setControlsList_append, ih]
    rfl

theorem configureList_loopEvents (dir : String) (capTs : Nat → Timestamp)
    (n : Nat) : configureList (loopEvents dir capTs n) = [] := by
  induction n with
  | zero => rfl
  | succ k ih =>
    rw [loopEvents_succ, configureList_append, ih]
    rfl

theorem lifecycleEvents_loopEvents (dir : String) (capTs : Nat → Timestamp)
    (n : Nat) : lifecycleEvents (loopEvents dir capTs n) = [] := by
  induction n with
  | zero => rfl
  | succ k ih =>
    rw [loopEvents_succ, lifecycleEvents_append, ih]
    rfl

theorem stopCount_configEvents (auto : Bool) (r : Nat × Nat)
    (ms : ManualSettings) : stopCount (configEvents auto r ms) = 0 := by
  cases auto <;>
    simp [configEvents, stopCount_append, stopCount_map_eLog, stopCount]

theorem captureFiles_configEvents (auto : Bool) (r : Nat × Nat)
    (ms : ManualSettings) : captureFiles (configEvents auto r ms) = [] := by
  cases auto <;>
    simp [configEvents, captureFiles_append, captureFiles_map_eLog, captureFiles]

theorem setControlsList_configEvents_auto (r : Nat × Nat)
    (ms : ManualSettings) : setControlsList (configEvents true r ms) = [] := rfl

theorem setControlsList_configEvents_manual (r : Nat × Nat)
    (ms : ManualSettings) :
    setControlsList (configEvents false r ms) = [(buildControls ms).1] := by
  simp [configEvents, setControlsList_append, setControlsList_map_eLog,
    setControlsList]

theorem configureList_configEvents (auto : Bool) (r : Nat × Nat)
    (ms : ManualSettings) :
    configureList (configEvents auto r ms) =
      [if auto then (r.1, r.2) else (ms.resolution.1, ms.resolution.2)] := by
  cases auto <;>
    simp [configEvents, configureList_append, configureList_map_eLog,
      configureList]

theorem lifecycleEvents_configEvents (auto : Bool) (r : Nat × Nat)
    (ms : ManualSettings) :
    lifecycleEvents (configEvents auto r ms) =
      [Event.eOpen,
       if auto then Event.eConfigureRes r.1 r.2
       else Event.eConfigureRes ms.resolution.1 ms.resolution.2] := by
  cases auto <;>
    simp [configEvents, lifecycleEvents_append, lifecycleEvents_map_eLog,
      lifecycleEvents, List.filter, isLifecycle]

theorem runMain_mkdirFault (auto : Bool) (autoRes : Nat × Nat)
    (ms : ManualSettings) (dirTs : Timestamp) (capTs : Nat → Timestamp)
    (le : LoopEnd) :
    runMain auto autoRes ms dirTs capTs ⟨true, le⟩ =
      (configEvents auto autoRes ms ++
        [Event.eStart, Event.eLog LogLine.infoCameraStarted],
       ExitStatus.raised) := rfl

theorem runMain_interrupted (auto : Bool) (autoRes : Nat × Nat)
    (ms : ManualSettings) (dirTs : Timestamp) (capTs : Nat → Timestamp)
    (n : Nat) :
    runMain auto autoRes ms dirTs capTs ⟨false, LoopEnd.interrupted n⟩ =
      (configEvents auto autoRes ms ++
        [Event.eStart, Event.eLog LogLine.infoCameraStarted] ++
        [Event.eMakeDirs (joinPath OUTPUT_BASE_PATH (fmtTimestamp dirTs)),
         Event.eLog (LogLine.infoSaveDir
           (joinPath OUTPUT_BASE_PATH (fmtTimestamp dirTs))),
         Event.eLog LogLine.infoStartingCapture] ++
        loopEvents (joinPath OUTPUT_BASE_PATH (fmtTimestamp dirTs)) capTs n ++
        [Event.eLog LogLine.infoStopping, Event.eStop,
         Event.eLog LogLine.infoStopped],
       ExitStatus.clean) := rfl

theorem runMain_faulted (auto : Bool) (autoRes : Nat × Nat)
    (ms : ManualSettings) (dirTs : Timestamp) (capTs : Nat → Timestamp)
    (n : Nat) :
    runMain auto autoRes ms dirTs capTs ⟨false, LoopEnd.faulted n⟩ =
      (configEvents auto autoRes ms ++
        [Event.eStart, Event.eLog LogLine.infoCameraStarted] ++
        [Event.eMakeDirs (joinPath OUTPUT_BASE_PATH (fmtTimestamp dirTs)),
         Event.eLog (LogLine.infoSaveDir
           (joinPath OUTPUT_BASE_PATH (fmtTimestamp dirTs))),
         Event.eLog LogLine.infoStartingCapture] ++
        loopEvents (joinPath OUTPUT_BASE_PATH (fmtTimestamp dirTs)) capTs n ++
        [Event.eLog (LogLine.capSaving
           (joinPath (joinPath OUTPUT_BASE_PATH (fmtTimestamp dirTs))
             (captureFilename (capTs n)))),
         Event.eStop, Event.eLog LogLine.infoStopped],
       ExitStatus.raised) := rfl

theorem string_data_inj {x y : String} (h : x.data = y.data) : x = y := by
  cases x; cases y; simp_all

theorem fmtTimestamp_data_length (t : Timestamp) :
    (fmtTimestamp t).data.length = 15 := by
  rw [fmtTimestamp_data, pad4_data, pad2_data, pad2_data, pad2_data,
    pad2_data, pad2_data]
  simp

theorem matchesDirFormat_fmtTimestamp (t : Timestamp) :
    matchesDirFormat (fmtTimestamp t) = true := by
  have m10 : ∀ n : Nat, (Nat.digitChar (n % 10)).isDigit = true :=
    fun n => digitChar_isDigit _ (Nat.mod_lt _ (by norm_num))
  rw [matchesDirFormat, fmtTimestamp_data, pad4_data, pad2_data, pad2_data,
    pad2_data, pad2_data, pad2_data]
  simp [dirChars, m10]

theorem captureFilename_data (t : Timestamp) :
    (captureFilename t).data =
      "image_".data ++ ((fmtTimestamp t).data ++ ".jpg".data) := by
  rw [captureFilename, String.data_append, String.data_append,
    List.append_assoc]

theorem matchesFileFormat_captureFilename (t : Timestamp) :
    matchesFileFormat (captureFilename t) = true := by
  rw [matchesFileFormat, captureFilename_data]
  have h6 : ("image_".data ++ ((fmtTimestamp t).data ++ ".jpg".data)).take 6 =
      "image_".data := by
    have : ("image_".data).length = 6 := rfl
    rw [← this, List.take_left]
  have hd6 : ("image_".data ++ ((fmtTimestamp t).data ++ ".jpg".data)).drop 6 =
      (fmtTimestamp t).data ++ ".jpg".data := by
    have : ("image_".data).length = 6 := rfl
    rw [← this, List.drop_left]
  rw [h6, hd6]
  have h15 : ((fmtTimestamp t).data ++ ".jpg".data).take 15 =
      (fmtTimestamp t).data := by
    rw [← fmtTimestamp_data_length t, List.take_left]
  have hd15 : ((fmtTimestamp t).data ++ ".jpg".data).drop 15 = ".jpg".data := by
    rw [← fmtTimestamp_data_length t, List.drop_left]
  rw [h15, hd15]
  have hdir := matchesDirFormat_fmtTimestamp t
  rw [matchesDirFormat] at hdir
  rw [hdir]
  rfl

theorem captureFilename_inj {t u : Timestamp} (ht : t.Valid) (hu : u.Valid)
    (h : captureFilename t = captureFilename u) : t = u := by
  apply fmtTimestamp_inj ht hu
  have h2 : (captureFilename t).data = (captureFilename u).data := by rw [h]
  rw [captureFilename_data, captureFilename_data] at h2
  have h3 := List.append_cancel_left h2
  have h4 := (List.append_inj h3
    (by rw [fmtTimestamp_data_length, fmtTimestamp_data_length])).1
  exact string_data_inj h4

theorem endsWithSlash_append_fmt (a : String) (t : Timestamp) :
    endsWithSlash (a ++ fmtTimestamp t) = false := by
  rw [endsWithSlash, String.data_append, List.getLast?_append,
    fmtTimestamp_getLast]
  have h := digitChar_ne_slash (t.second % 10) (Nat.mod_lt _ (by norm_num))
  simp [h]

theorem append_fmt_ne_empty (a : String) (t : Timestamp) :
    a ++ fmtTimestamp t ≠ "" := by
  intro h
  have h2 : (a ++ fmtTimestamp t).data.length = ("" : String).data.length := by
    rw [h]
  rw [String.data_append, List.length_append, fmtTimestamp_data_length] at h2
  simp at h2

theorem setControlsList_runMain (auto : Bool) (autoRes : Nat × Nat)
    (ms : ManualSettings) (dirTs : Timestamp) (capTs : Nat → Timestamp)
    (env : Env) :
    setControlsList (runMain auto autoRes ms dirTs capTs env).1 =
      setControlsList (configEvents auto autoRes ms) := by
  obtain ⟨mk, le⟩ := env
  cases mk
  · cases le with
    | interrupted n =>
      rw [runMain_interrupted]
      simp only []
      rw [setControlsList_append, setControlsList_append,
        setControlsList_append, setControlsList_append,
        setControlsList_loopEvents]
      simp [setControlsList]
    | faulted n =>
      rw [runMain_faulted]
      simp only []
      rw [setControlsList_append, setControlsList_append,
        setControlsList_append, setControlsList_append,
        setControlsList_loopEvents]
      simp [setControlsList]
  · rw [runMain_mkdirFault]
    simp only []
    rw [setControlsList_append]
    simp [setControlsList]

theorem configureList_runMain (auto : Bool) (autoRes : Nat × Nat)
    (ms : ManualSettings) (dirTs : Timestamp) (capTs : Nat → Timestamp)
    (env : Env) :
    configureList (runMain auto autoRes ms dirTs capTs env).1 =
      configureList (configEvents auto autoRes ms) := by
  obtain ⟨mk, le⟩ := env
  cases mk
  · cases le with
    | interrupted n =>
      rw [runMain_interrupted]
      simp only []
      rw [configureList_append, configureList_append, configureList_append,
        configureList_append, configureList_loopEvents]
      simp [configureList]
    | faulted n =>
      rw [runMain_faulted]
      simp only []
      rw [configureList_append, configureList_append, configureList_append,
        configureList_append, configureList_loopEvents]
      simp [configureList]
  · rw [runMain_mkdirFault]
    simp only []
    rw [configureList_append]
    simp [configureList]

theorem stopCount_runMain_nofault (auto : Bool) (autoRes : Nat × Nat)
    (ms : ManualSettings) (dirTs : Timestamp) (capTs : Nat → Timestamp)
    (le : LoopEnd) :
    stopCount (runMain auto autoRes ms dirTs capTs ⟨false, le⟩).1 = 1 := by
  cases le with
  | interrupted n =>
    rw [runMain_interrupted]
    simp only []
    rw [stopCount_append, stopCount_append, stopCount_append,
      stopCount_append, stopCount_loopEvents, stopCount_configEvents]
    rfl
  | faulted n =>
    rw [runMain_faulted]
    simp only []
    rw [stopCount_append, stopCount_append, stopCount_append,
      stopCount_append, stopCount_loopEvents, stopCount_configEvents]
    rfl

theorem captureFiles_runMain_nofault (auto : Bool) (autoRes : Nat × Nat)
    (ms : ManualSettings) (dirTs : Timestamp) (capTs : Nat → Timestamp)
    (le : LoopEnd) :
    captureFiles (runMain auto autoRes ms dirTs capTs ⟨false, le⟩).1 =
      (List.range le.captures).map (fun i =>
        joinPath (joinPath OUTPUT_BASE_PATH (fmtTimestamp dirTs))
          (captureFilename (capTs i))) := by
  cases le with
  | interrupted n =>
    rw [runMain_interrupted]
    simp only []
    rw [captureFiles_append, captureFiles_append, captureFiles_append,
      captureFiles_append, captureFiles_loopEvents, captureFiles_configEvents]
    simp [captureFiles, LoopEnd.captures]
  | faulted n =>
    rw [runMain_faulted]
    simp only []
    rw [captureFiles_append, captureFiles_append, captureFiles_append,
      captureFiles_append, captureFiles_loopEvents, captureFiles_configEvents]
    simp [captureFiles, LoopEnd.captures]

theorem captureFiles_runMain_fault (auto : Bool) (autoRes : Nat × Nat)
    (ms : ManualSettings) (dirTs : Timestamp) (capTs : Nat → Timestamp)
    (le : LoopEnd) :
    captureFiles (runMain auto autoRes ms dirTs capTs ⟨true, le⟩).1 = [] := by
  rw [runMain_mkdirFault]
  simp only []
  rw [captureFiles_append, captureFiles_configEvents]
  rfl

theorem lifecycleEvents_runMain_nofault (auto : Bool) (autoRes : Nat × Nat)
    (ms : ManualSettings) (dirTs : Timestamp) (capTs : Nat → Timestamp)
    (le : LoopEnd) :
    lifecycleEvents (runMain auto autoRes ms dirTs capTs ⟨false, le⟩).1 =
      lifecycleEvents (configEvents auto autoRes ms) ++
        [Event.eStart, Event.eStop] := by
  cases le with
  | interrupted n =>
    rw [runMain_interrupted]
    simp only []
    rw [lifecycleEvents_append, lifecycleEvents_append,
      lifecycleEvents_append, lifecycleEvents_append,
      lifecycleEvents_loopEvents]
    simp [lifecycleEvents, List.filter, isLifecycle]
  | faulted n =>
    rw [runMain_faulted]
    simp only []
    rw [lifecycleEvents_append, lifecycleEvents_append,
      lifecycleEvents_append, lifecycleEvents_append,
      lifecycleEvents_loopEvents]
    simp [lifecycleEvents, List.filter, isLifecycle]

/-- C1 counterexample: a run in which `os.makedirs` raises — after
`picam.start()` but before the `try` block — reaches the started state
yet exits with no `picam.stop()` call, refuting the claim that the device
stop operation is invoked on every exit path from the started state
(including a fault during output-directory creation). -/
theorem claim_c1_counterexample :
    Event.eStart ∈ (runMain true (1920, 1080) MANUAL_SETTINGS
        ⟨2025, 1, 3, 10, 15, 0⟩ (fun _ => ⟨2025, 1, 3, 10, 15, 0⟩)
        ⟨true, LoopEnd.interrupted 0⟩).1 ∧
    stopCount (runMain true (1920, 1080) MANUAL_SETTINGS
        ⟨2025, 1, 3, 10, 15, 0⟩ (fun _ => ⟨2025, 1, 3, 10, 15, 0⟩)
        ⟨true, LoopEnd.interrupted 0⟩).1 = 0 := by
  constructor
  · decide
  · rfl

/-- C1 (amended): on every run in which output-directory creation does
not raise — so every exit from the started state goes through the
`try/finally` — the device is stopped exactly once before process exit,
whether the loop ended by operator interrupt or by an unhandled fault
raised inside the loop. -/
theorem claim_c1_stop_on_every_exit (auto : Bool) (autoRes : Nat × Nat)
    (ms : ManualSettings) (dirTs : Timestamp) (capTs : Nat → Timestamp)
    (env : Env) (h : env.mkdirFault = false) :
    stopCount (runMain auto autoRes ms dirTs capTs env).1 = 1 := by
  obtain ⟨mk, le⟩ := env
  have hmk : mk = false := h
  subst hmk
  exact stopCount_runMain_nofault auto autoRes ms dirTs capTs le

/-- C1 witness: the amended theorem at a concrete interrupted run and a
concrete faulted run. -/
theorem claim_c1_stop_on_every_exit_witness :
    stopCount (runMain true (1920, 1080) MANUAL_SETTINGS
        ⟨2025, 1, 3, 10, 15, 0⟩ (fun i => ⟨2025, 1, 3, 10, 15, i⟩)
        ⟨false, LoopEnd.interrupted 2⟩).1 = 1 ∧
    stopCount (runMain false (1920, 1080) MANUAL_SETTINGS
        ⟨2025, 1, 3, 10, 15, 0⟩ (fun i => ⟨2025, 1, 3, 10, 15, i⟩)
        ⟨false, LoopEnd.faulted 1⟩).1 = 1 :=
  ⟨claim_c1_stop_on_every_exit true (1920, 1080) MANUAL_SETTINGS
      ⟨2025, 1, 3, 10, 15, 0⟩ (fun i => ⟨2025, 1, 3, 10, 15, i⟩)
      ⟨false, LoopEnd.interrupted 2⟩ rfl,
   claim_c1_stop_on_every_exit false (1920, 1080) MANUAL_SETTINGS
      ⟨2025, 1, 3, 10, 15, 0⟩ (fun i => ⟨2025, 1, 3, 10, 15, i⟩)
      ⟨false, LoopEnd.faulted 1⟩ rfl⟩

/-- C7: a run interrupted during the capture loop exits cleanly (the
interrupt is swallowed by the handler), stops the device exactly once,
prints the shutdown notice, and performs no captures after the
interrupt: the trace is the pre-interrupt body — containing exactly the
`n` completed captures — followed only by notice, stop, and the final
message. -/
theorem claim_c7_interrupt_shutdown (auto : Bool) (autoRes : Nat × Nat)
    (ms : ManualSettings) (dirTs : Timestamp) (capTs : Nat → Timestamp)
    (n : Nat) :
    (runMain auto autoRes ms dirTs capTs ⟨false, LoopEnd.interrupted n⟩).2 =
      ExitStatus.clean ∧
    stopCount (runMain auto autoRes ms dirTs capTs
      ⟨false, LoopEnd.interrupted n⟩).1 = 1 ∧
    Event.eLog LogLine.infoStopping ∈ (runMain auto autoRes ms dirTs capTs
      ⟨false, LoopEnd.interrupted n⟩).1 ∧
    ∃ body,
      (runMain auto autoRes ms dirTs capTs
          ⟨false, LoopEnd.interrupted n⟩).1 =
        body ++ [Event.eLog LogLine.infoStopping, Event.eStop,
          Event.eLog LogLine.infoStopped] ∧
      captureFiles body =
        (List.range n).map (fun i =>
          joinPath (joinPath OUTPUT_BASE_PATH (fmtTimestamp dirTs))
            (captureFilename (capTs i))) := by
  refine ⟨rfl, stopCount_runMain_nofault auto autoRes ms dirTs capTs _, ?_, ?_⟩
  · rw [runMain_interrupted]
    simp
  · refine ⟨configEvents auto autoRes ms ++
      [Event.eStart, Event.eLog LogLine.infoCameraStarted] ++
      [Event.eMakeDirs (joinPath OUTPUT_BASE_PATH (fmtTimestamp dirTs)),
       Event.eLog (LogLine.infoSaveDir
         (joinPath OUTPUT_BASE_PATH (fmtTimestamp dirTs))),
       Event.eLog LogLine.infoStartingCapture] ++
      loopEvents (joinPath OUTPUT_BASE_PATH (fmtTimestamp dirTs)) capTs n,
      ?_, ?_⟩
    · rw [runMain_interrupted]
    · rw [captureFiles_append, captureFiles_append, captureFiles_append,
        captureFiles_configEvents, captureFiles_loopEvents]
      simp [captureFiles]

/-- C8: in fully automatic mode, only the resolution is passed at
configuration time — the single configure call carries the resolution and
no `set_controls` call occurs anywhere in the run. -/
theorem claim_c8_auto_only_resolution (autoRes : Nat × Nat)
    (ms : ManualSettings) (dirTs : Timestamp) (capTs : Nat → Timestamp)
    (env : Env) :
    setControlsList (runMain true autoRes ms dirTs capTs env).1 = [] ∧
    configureList (runMain true autoRes ms dirTs capTs env).1 =
      [(autoRes.1, autoRes.2)] := by
  constructor
  · rw [setControlsList_runMain]
    rfl
  · rw [configureList_runMain, configureList_configEvents]
    rfl

/-- C9 counterexample: a run in which directory creation raises reaches
the started state but exits with no stop call, refuting the claim that on
every run the handle is stopped exactly once at exit. -/
theorem claim_c9_counterexample :
    Event.eStart ∈ (runMain false (1920, 1080) MANUAL_SETTINGS
        ⟨2025, 1, 3, 10, 15, 0⟩ (fun _ => ⟨2025, 1, 3, 10, 15, 0⟩)
        ⟨true, LoopEnd.faulted 0⟩).1 ∧
    stopCount (runMain false (1920, 1080) MANUAL_SETTINGS
        ⟨2025, 1, 3, 10, 15, 0⟩ (fun _ => ⟨2025, 1, 3, 10, 15, 0⟩)
        ⟨true, LoopEnd.faulted 0⟩).1 = 0 := by
  constructor
  · decide
  · rfl

/-- C9 (amended): on every run in which output-directory creation does
not raise, the device-lifecycle subtrace is exactly open, one configure
(with the active mode's resolution), start, stop — each once, in that
order, with no reopen or reconfigure after start.  (On a run whose
directory creation raises, the stop call never happens.) -/
theorem claim_c9_device_lifecycle (auto : Bool) (autoRes : Nat × Nat)
    (ms : ManualSettings) (dirTs : Timestamp) (capTs : Nat → Timestamp)
    (env : Env) (h : env.mkdirFault = false) :
    lifecycleEvents (runMain auto autoRes ms dirTs capTs env).1 =
      [Event.eOpen,
       if auto then Event.eConfigureRes autoRes.1 autoRes.2
       else Event.eConfigureRes ms.resolution.1 ms.resolution.2,
       Event.eStart, Event.eStop] := by
  obtain ⟨mk, le⟩ := env
  have hmk : mk = false := h
  subst hmk
  rw [lifecycleEvents_runMain_nofault, lifecycleEvents_configEvents]
  rfl

/-- C9 witness: the amended theorem at a concrete auto-mode interrupted
run. -/
theorem claim_c9_device_lifecycle_witness :
    lifecycleEvents (runMain true (1920, 1080) MANUAL_SETTINGS
        ⟨2025, 1, 3, 10, 15, 0⟩ (fun i => ⟨2025, 1, 3, 10, 15, i⟩)
        ⟨false, LoopEnd.interrupted 1⟩).1 =
      [Event.eOpen, Event.eConfigureRes 1920 1080,
       Event.eStart, Event.eStop] := by
  simpa using claim_c9_device_lifecycle true (1920, 1080) MANUAL_SETTINGS
    ⟨2025, 1, 3, 10, 15, 0⟩ (fun i => ⟨2025, 1, 3, 10, 15, i⟩)
    ⟨false, LoopEnd.interrupted 1⟩ rfl

/-- C10: the manual-mode control set always contains the four quality
keys and `AeEnable` and `AwbEnable`; it contains `ExposureTime` and
`AnalogueGain` exactly when `AeEnable` is false, and `AwbMode` exactly
when `AwbEnable` is false; and the whole set is applied to the device in
a single `set_controls` call carrying the fully resolved dict. -/
theorem claim_c10_controls_invariant (ms : ManualSettings)
    (autoRes : Nat × Nat) (dirTs : Timestamp) (capTs : Nat → Timestamp)
    (env : Env) :
    (hasKey (buildControls ms).1 "Brightness" = true ∧
     hasKey (buildControls ms).1 "Contrast" = true ∧
     hasKey (buildControls ms).1 "Saturation" = true ∧
     hasKey (buildControls ms).1 "Sharpness" = true ∧
     hasKey (buildControls ms).1 "AeEnable" = true ∧
     hasKey (buildControls ms).1 "AwbEnable" = true ∧
     (hasKey (buildControls ms).1 "ExposureTime" = true ↔
       dictGet (buildControls ms).1 "AeEnable" = some (CtrlVal.vBool false)) ∧
     (hasKey (buildControls ms).1 "AnalogueGain" = true ↔
       dictGet (buildControls ms).1 "AeEnable" = some (CtrlVal.vBool false)) ∧
     (hasKey (buildControls ms).1 "AwbMode" = true ↔
       dictGet (buildControls ms).1 "AwbEnable" = some (CtrlVal.vBool false))) ∧
    setControlsList (runMain false autoRes ms dirTs capTs env).1 =
      [(buildControls ms).1] := by
  refine ⟨buildControls_structure ms, ?_⟩
  rw [setControlsList_runMain]
  exact setControlsList_configEvents_manual autoRes ms

/-- C4: two `create_output_directory` calls with the same base path in
the same clock second both succeed, return the same path, and leave the
directory existing (the second call reuses the directory without error);
a call in a different second succeeds and returns a distinct directory. -/
theorem claim_c4_create_output_directory (base : String) (t u : Timestamp)
    (fs : List String) (ht : t.Valid) (hu : u.Valid) (htu : t ≠ u) :
    ∃ d fs1, create_output_directory base t fs = Except.ok (d, fs1) ∧
      d ∈ fs1 ∧
      create_output_directory base t fs1 = Except.ok (d, fs1) ∧
      ∃ d2 fs2, create_output_directory base u fs1 = Except.ok (d2, fs2) ∧
        d2 ≠ d ∧ d2 ∈ fs2 := by
  obtain ⟨fs1, h1, hmem, _⟩ := create_output_directory_ok base t fs
  refine ⟨_, fs1, h1, hmem,
    create_output_directory_stable base t fs1 hmem, ?_⟩
  obtain ⟨fs2, h2, hmem2, _⟩ := create_output_directory_ok base u fs1
  refine ⟨_, fs2, h2, ?_, hmem2⟩
  intro heq
  apply htu
  exact (fmtTimestamp_inj hu ht (joinPath_right_inj
    (fmtTimestamp_not_slash_start u) (fmtTimestamp_not_slash_start t)
    heq)).symm

/-- C4 witness: the theorem at base `/tmp/x`, two concrete instants one
second apart, and an empty filesystem. -/
theorem claim_c4_create_output_directory_witness :
    ((⟨2025, 1, 3, 10, 15, 0⟩ : Timestamp).Valid ∧
      (⟨2025, 1, 3, 10, 15, 1⟩ : Timestamp).Valid ∧
      (⟨2025, 1, 3, 10, 15, 0⟩ : Timestamp) ≠ ⟨2025, 1, 3, 10, 15, 1⟩) ∧
    (∃ d fs1, create_output_directory "/tmp/x" ⟨2025, 1, 3, 10, 15, 0⟩ [] =
        Except.ok (d, fs1) ∧ d ∈ fs1 ∧
      create_output_directory "/tmp/x" ⟨2025, 1, 3, 10, 15, 0⟩ fs1 =
        Except.ok (d, fs1) ∧
      ∃ d2 fs2, create_output_directory "/tmp/x" ⟨2025, 1, 3, 10, 15, 1⟩ fs1 =
        Except.ok (d2, fs2) ∧ d2 ≠ d ∧ d2 ∈ fs2) :=
  ⟨⟨by decide, by decide, by decide⟩,
   claim_c4_create_output_directory "/tmp/x" ⟨2025, 1, 3, 10, 15, 0⟩
     ⟨2025, 1, 3, 10, 15, 1⟩ [] (by decide) (by decide) (by decide)⟩

/-- C5: the session directory name is exactly `YYYYMMDD_HHMMSS`, every
captured image file name is exactly `image_YYYYMMDD_HHMMSS.jpg`, and
every captured file path in a run is
`<base>/<YYYYMMDD_HHMMSS>/image_<YYYYMMDD_HHMMSS>.jpg`. -/
theorem claim_c5_naming (auto : Bool) (autoRes : Nat × Nat)
    (ms : ManualSettings) (dirTs : Timestamp) (_hd : dirTs.Valid)
    (capTs : Nat → Timestamp) (_hv : ∀ i, (capTs i).Valid) (env : Env) :
    matchesDirFormat (fmtTimestamp dirTs) = true ∧
    (∀ i, matchesFileFormat (captureFilename (capTs i)) = true) ∧
    (∀ p ∈ captureFiles (runMain auto autoRes ms dirTs capTs env).1,
      ∃ i, p = OUTPUT_BASE_PATH ++ "/" ++ fmtTimestamp dirTs ++ "/" ++
        captureFilename (capTs i)) := by
  refine ⟨matchesDirFormat_fmtTimestamp dirTs,
    fun i => matchesFileFormat_captureFilename _, ?_⟩
  intro p hp
  obtain ⟨mk, le⟩ := env
  cases mk
  · rw [captureFiles_runMain_nofault] at hp
    obtain ⟨i, _, hpe⟩ := List.mem_map.mp hp
    refine ⟨i, ?_⟩
    rw [← hpe]
    have hdir : joinPath OUTPUT_BASE_PATH (fmtTimestamp dirTs) =
        OUTPUT_BASE_PATH ++ "/" ++ fmtTimestamp dirTs :=
      joinPath_eq_concat _ _ (by decide) (by decide)
        (fmtTimestamp_not_slash_start _)
    rw [hdir]
    exact joinPath_eq_concat _ _
      (append_fmt_ne_empty (OUTPUT_BASE_PATH ++ "/") dirTs)
      (endsWithSlash_append_fmt (OUTPUT_BASE_PATH ++ "/") dirTs)
      (captureFilename_not_slash_start _)
  · rw [captureFiles_runMain_fault] at hp
    simp at hp

/-- C5 witness: the theorem at a concrete valid instant and constant
clock. -/
theorem claim_c5_naming_witness :
    matchesDirFormat (fmtTimestamp ⟨2025, 1, 3, 10, 15, 0⟩) = true ∧
    matchesFileFormat (captureFilename ⟨2025, 1, 3, 10, 15, 0⟩) = true :=
  ⟨(claim_c5_naming true (1920, 1080) MANUAL_SETTINGS
      ⟨2025, 1, 3, 10, 15, 0⟩ (by decide)
      (fun _ => ⟨2025, 1, 3, 10, 15, 0⟩)
      (fun _ => (by decide : (⟨2025, 1, 3, 10, 15, 0⟩ : Timestamp).Valid))
      ⟨false, LoopEnd.interrupted 1⟩).1,
   (claim_c5_naming true (1920, 1080) MANUAL_SETTINGS
      ⟨2025, 1, 3, 10, 15, 0⟩ (by decide)
      (fun _ => ⟨2025, 1, 3, 10, 15, 0⟩)
      (fun _ => (by decide : (⟨2025, 1, 3, 10, 15, 0⟩ : Timestamp).Valid))
      ⟨false, LoopEnd.interrupted 1⟩).2.1 0⟩

/-- C6: if, within a session of `n` completed captures, every iteration
reads a valid clock instant and the clock has advanced by at least one
second between consecutive iterations (the loop period exceeds the
one-second timestamp resolution), then all captured file paths are
distinct. -/
theorem claim_c6_unique_filenames (auto : Bool) (autoRes : Nat × Nat)
    (ms : ManualSettings) (dirTs : Timestamp) (capTs : Nat → Timestamp)
    (n : Nat) (hv : ∀ i, i < n → (capTs i).Valid)
    (hmono : ∀ i, i + 1 < n → (capTs i).key < (capTs (i + 1)).key) :
    (captureFiles (runMain auto autoRes ms dirTs capTs
      ⟨false, LoopEnd.interrupted n⟩).1).Nodup := by
  rw [captureFiles_runMain_nofault]
  have hlt : ∀ i j, i < j → j < n → (capTs i).key < (capTs j).key := by
    intro i j hij hjn
    induction j with
    | zero => omega
    | succ k ih =>
      rcases Nat.lt_succ_iff_lt_or_eq.mp hij with hik | hik
      · exact Nat.lt_trans (ih hik (by omega)) (hmono k hjn)
      · rw [hik]
        exact hmono k hjn
  apply List.Nodup.map_on ?_ (List.nodup_range n)
  intro i hi j hj heq
  rw [List.mem_range] at hi hj
  have h1 : captureFilename (capTs i) = captureFilename (capTs j) :=
    joinPath_right_inj (captureFilename_not_slash_start _)
      (captureFilename_not_slash_start _) heq
  have h2 : capTs i = capTs j :=
    captureFilename_inj (hv i hi) (hv j hj) h1
  by_contra hne
  rcases Nat.lt_or_ge i j with hij | hij
  · exact absurd (hlt i j hij hj) (by rw [h2]; omega)
  · have hji : j < i := by omega
    exact absurd (hlt j i hji hi) (by rw [h2]; omega)

/-- C6 witness: three captures one second apart produce three distinct
paths. -/
theorem claim_c6_unique_filenames_witness :
    (∀ i, i < 3 → (Timestamp.mk 2025 1 3 10 15 i).Valid) ∧
    (captureFiles (runMain true (1920, 1080) MANUAL_SETTINGS
      ⟨2025, 1, 3, 10, 15, 0⟩ (fun i => ⟨2025, 1, 3, 10, 15, i⟩)
      ⟨false, LoopEnd.interrupted 3⟩).1).Nodup :=
  ⟨by decide,
   claim_c6_unique_filenames true (1920, 1080) MANUAL_SETTINGS
     ⟨2025, 1, 3, 10, 15, 0⟩ (fun i => ⟨2025, 1, 3, 10, 15, i⟩) 3
     (by decide)
     (by
       intro i hi
       have hi2 : i < 2 := by omega
       interval_cases i <;> decide)⟩

end CaptureLoop
